import Mathlib

/-!
Shallow embedding of the donation inventory and claim engine of the
frn-backend repository (Flask + SQLAlchemy), covering:

* `src/models.py` — the `User`, `Donation` and `Claim` rows (here
  `Account`, `Listing`, `ClaimRow`);
* `src/routes/donations.py` — `create_donation`, `get_donations`,
  `claim_donation`;
* `src/scheduler.py` — `expire_food_job` (the expiry sweep; the twin
  `update_expired_status` in `src/utils.py` applies the same filter and the
  same status write).

Modelling conventions: Python floats are modelled as exact rationals (ℚ);
timestamps are rationals on an abstract time axis; the SQL database is a
record of three lists; `User.query.get` / `Donation.query.get` are
first-match lookups by primary key; the PostGIS distance expression
`ST_DistanceSphere(User.location, point)` is abstracted as a function
from the donor id to `Option ℚ` metres (`none` models a SQL NULL result
for a donor without a stored location), and the possibility that the
whole geo query raises (e.g. no PostGIS support) is an explicit boolean
input.  Python's stable `list.sort` is modelled with the stable
`List.insertionSort`.  HTTP error responses become constructors of error
types; mail/socket/log side effects are outside the state and dropped.
-/

namespace FRN

/-- Account row (`User` in `src/models.py`): the fields the donation and
claim logic reads or writes. `points` defaults to 0 and `impact_tier` to
"Newcomer" at registration. -/
structure Account where
  id : Nat
  role : String
  is_verified : Bool
  points : ℤ
  impact_tier : String
  deriving Repr, DecidableEq

/-- Donation row (`Donation` in `src/models.py`). `quantity_kg` is the
remaining quantity, `initial_quantity_kg` the quantity at creation;
`expiration_date` is nullable. -/
structure Listing where
  id : Nat
  donor_id : Nat
  quantity_kg : ℚ
  initial_quantity_kg : ℚ
  status : String
  expiration_date : Option ℚ
  created_at : ℚ
  deriving Repr, DecidableEq

/-- Claim row (`Claim` in `src/models.py`); the pickup code and timestamps
play no role in the claims verified here and are omitted. -/
structure ClaimRow where
  donation_id : Nat
  rescuer_id : Nat
  quantity_claimed : ℚ
  deriving Repr, DecidableEq

/-- The database state: the three tables the donation engine touches. -/
structure DB where
  users : List Account
  donations : List Listing
  claims : List ClaimRow
  deriving Repr, DecidableEq

/-- First row whose key equals `i` (models `Model.query.get(pk)`). -/
def findBy (key : α → Nat) : List α → Nat → Option α
  | [], _ => none
  | x :: xs, i => if key x = i then some x else findBy key xs i

/-- Apply `f` to every row whose key equals `i` (models an ORM attribute
write on the object fetched by primary key, observed through `findBy`). -/
def updateBy (key : α → Nat) (i : Nat) (f : α → α) (l : List α) : List α :=
  l.map fun x => if key x = i then f x else x

def lookupUser (db : DB) (i : Nat) : Option Account :=
  findBy Account.id db.users i

def lookupListing (db : DB) (i : Nat) : Option Listing :=
  findBy Listing.id db.donations i

def updateUserBy (db : DB) (i : Nat) (f : Account → Account) : DB :=
  { db with users := updateBy Account.id i f db.users }

def updateListingBy (db : DB) (i : Nat) (f : Listing → Listing) : DB :=
  { db with donations := updateBy Listing.id i f db.donations }

/-- Python `int(x)` on a float: truncation toward zero (the numerator of
a rational in lowest terms divided by its positive denominator, with
`Int.tdiv` rounding toward zero). -/
def pyInt (x : ℚ) : ℤ :=
  Int.tdiv x.num (x.den : ℤ)

/-- Over-claim tolerance `0.01` from `claim_donation`. -/
def epsTolerance : ℚ := 1 / 100

/-- Completion threshold `0.1` from `claim_donation`. -/
def closeThreshold : ℚ := 1 / 10

/-- The tier ladder written inline in `claim_donation` (evaluated on the
donor's point total after the credit). -/
def tierFor (points : ℤ) : String :=
  if points ≥ 5000 then "Sapphire"
  else if points ≥ 2000 then "Gold"
  else if points ≥ 500 then "Silver"
  else "Bronze"

/-- The expiry test `donation.expiration_date and donation.expiration_date
< now`; a NULL date never counts as past. -/
def pastExpiry (d : Listing) (now : ℚ) : Bool :=
  match d.expiration_date with
  | none => false
  | some e => e < now

/-- Points credited by one committed claim:
`points_earned = int(claim_qty * 10)`. -/
def creditFor (q : ℚ) : ℤ := pyInt (q * 10)

/-- Error responses of `claim_donation` (`src/routes/donations.py`,
route `/api/claim`), in source order. `internalErr` stands for the 500
paths (missing user row behind a valid JWT, storage failure). -/
inductive ClaimErr
  | notRescuer
  | notVerified
  | missingId
  | notFound
  | expiredItem
  | alreadyClaimed
  | nonPositive
  | overClaim
  | internalErr
  deriving Repr, DecidableEq

/-- A claim request body plus the JWT identity. `donation_id` and
`quantity_kg` model `data.get(...)`: `none` is an absent field. -/
structure ClaimReq where
  rescuer_id : Nat
  donation_id : Option Nat
  quantity_kg : Option ℚ
  deriving Repr, DecidableEq

/-- The commit phase of `claim_donation` (lines 378-408 of
`src/routes/donations.py`): decrement the fetched listing `d` by `q`
with the 0.1 clamp, credit `int(q * 10)` points to the fetched donor and
recompute the tier from the credited total, and append the ledger row —
all committed as one transaction. -/
def commitClaim (db : DB) (rid did : Nat) (d : Listing) (donor : Account)
    (q : ℚ) : DB :=
  let db1 := updateListingBy db did fun x =>
    if d.quantity_kg - q ≤ closeThreshold then
      { x with quantity_kg := 0, status := "claimed" }
    else
      { x with quantity_kg := d.quantity_kg - q,
               status := "partially_claimed" }
  let db2 := updateUserBy db1 d.donor_id fun u =>
    { u with points := donor.points + creditFor q,
             impact_tier := tierFor (donor.points + creditFor q) }
  { db2 with claims := db2.claims ++ [⟨did, rid, q⟩] }

/-- The route handler `claim_donation` (`src/routes/donations.py` lines
336-441), checks in
source order: role, verification, presence of `donation_id` (Python
`if not donation_id` also catches the falsy id 0), existence, expiry,
terminal status, positivity of `claim_qty` (which defaults to the
listing's remaining quantity when the field is absent), over-claim
tolerance; then the commit.  An exception rolls everything back, which
in this pure embedding is the `.error` result leaving the state with the
caller. -/
def claimDonation (db : DB) (now : ℚ) (req : ClaimReq) : Except ClaimErr DB :=
  match lookupUser db req.rescuer_id with
  | none => .error .internalErr
  | some rescuer =>
    if rescuer.role ≠ "rescuer" then .error .notRescuer
    else if rescuer.is_verified = false then .error .notVerified
    else match req.donation_id with
      | none => .error .missingId
      | some did =>
        if did = 0 then .error .missingId
        else match lookupListing db did with
          | none => .error .notFound
          | some d =>
            if pastExpiry d now then .error .expiredItem
            else if d.status = "claimed" then .error .alreadyClaimed
            else if req.quantity_kg.getD d.quantity_kg ≤ 0 then
              .error .nonPositive
            else if req.quantity_kg.getD d.quantity_kg >
                d.quantity_kg + epsTolerance then .error .overClaim
            else match lookupUser db d.donor_id with
              | none => .error .internalErr
              | some donor =>
                .ok (commitClaim db req.rescuer_id did d donor
                      (req.quantity_kg.getD d.quantity_kg))

/-- One claim attempt as a state transformer: a rejected request leaves
the database untouched (the Flask handler returns before any write, or
rolls back). -/
def stepClaim (now : ℚ) (db : DB) (req : ClaimReq) : DB :=
  match claimDonation db now req with
  | .ok db2 => db2
  | .error _ => db

/-- A sequence of claim attempts against the same database. -/
def runClaims (now : ℚ) (db : DB) (reqs : List ClaimReq) : DB :=
  reqs.foldl (stepClaim now) db

/-- Error responses of `create_donation` (`src/routes/donations.py`
lines 15-125), in source order. -/
inductive CreateErr
  | notVerified
  | notDonor
  | missingFields
  | notANumber
  | badDate
  | internalErr
  deriving Repr, DecidableEq

/-- A donation-creation request. `has_required` is the presence check for
title/description/quantity_kg/food_type; `quantity_kg` is `none` when
`float(data['quantity_kg'])` raises `ValueError`; `expiration_field` is
`none` when the field is absent, `some none` when present but
`datetime.fromisoformat` rejects it, `some (some t)` when it parses. -/
structure CreateReq where
  user_id : Nat
  has_required : Bool
  quantity_kg : Option ℚ
  expiration_field : Option (Option ℚ)
  deriving Repr, DecidableEq

/-- The route handler `create_donation` (`src/routes/donations.py` lines
15-125), checks in
source order: verification, role, required fields, quantity parse, date
parse; then the insert with `status='available'` and
`initial_quantity_kg = quantity_kg = kg_amount`.  There is no sign or
positivity check on the parsed quantity.  `newId` is the
autoincremented primary key, `now` the creation timestamp. -/
def createDonation (db : DB) (req : CreateReq) (newId : Nat) (now : ℚ) :
    Except CreateErr (DB × Listing) :=
  match lookupUser db req.user_id with
  | none => .error .internalErr
  | some u =>
    if u.is_verified = false then .error .notVerified
    else if u.role ≠ "donor" then .error .notDonor
    else if req.has_required = false then .error .missingFields
    else match req.quantity_kg with
      | none => .error .notANumber
      | some kg =>
        match req.expiration_field with
        | some none => .error .badDate
        | expOpt =>
          let expDate : Option ℚ :=
            match expOpt with
            | some (some t) => some t
            | _ => none
          let d : Listing :=
            { id := newId, donor_id := req.user_id, quantity_kg := kg,
              initial_quantity_kg := kg, status := "available",
              expiration_date := expDate, created_at := now }
          .ok ({ db with donations := db.donations ++ [d] }, d)

/-- The hourly sweep `expire_food_job` (`src/scheduler.py` lines 18-48):
it selects the rows with `status == 'available'` and
`expiration_date < now` (a NULL date never matches) and writes
`status = 'expired'` on them.  `update_expired_status` in `src/utils.py`
applies the identical filter and write. -/
def expireFoodJob (db : DB) (now : ℚ) : DB :=
  { db with donations := db.donations.map fun d =>
      if d.status = "available" ∧ pastExpiry d now then
        { d with status := "expired" }
      else d }

/-- Floor of a rational, written directly as floor division of the
numerator by the (positive) denominator. -/
def ratFloor (y : ℚ) : ℤ :=
  Int.fdiv y.num (y.den : ℤ)

/-- Round half to even, as Python's `round` does on the exact value. -/
def roundHalfEven (y : ℚ) : ℤ :=
  if y - (ratFloor y : ℚ) < 1 / 2 then ratFloor y
  else if 1 / 2 < y - (ratFloor y : ℚ) then ratFloor y + 1
  else if ratFloor y % 2 = 0 then ratFloor y else ratFloor y + 1

/-- Python's `round(x, 2)`. -/
def round2 (x : ℚ) : ℚ := (roundHalfEven (x * 100) : ℚ) / 100

/-- A row of the feed response produced by `get_donations`; only the
fields the verified properties mention are kept. -/
structure FeedItem where
  id : Nat
  quantity_kg : ℚ
  created_at : ℚ
  distance_km : Option ℚ
  deriving Repr, DecidableEq

/-- Status filter `Donation.status.in_(['available', 'partially_claimed'])`
used by both branches of `get_donations`. -/
def activeStatus (s : String) : Bool :=
  s = "available" ∨ s = "partially_claimed"

/-- The sort key of the located feed:
`x['distance_km'] if x['distance_km'] is not None else float('inf')`,
compared ascending — a missing distance sorts as infinity, i.e. last. -/
def distLe : Option ℚ → Option ℚ → Bool
  | none, none => true
  | none, some _ => false
  | some _, none => true
  | some a, some b => a ≤ b

/-- Ordering relation on feed rows for the located branch. -/
def distRel (a b : FeedItem) : Prop :=
  distLe a.distance_km b.distance_km = true

/-- Ordering relation for `order_by(Donation.created_at.desc())`. -/
def newerRel (a b : Listing) : Prop :=
  b.created_at ≤ a.created_at

instance : DecidableRel distRel := fun _ _ => instDecidableEqBool _ _

instance : DecidableRel newerRel := fun _ _ => Rat.instDecidableLe _ _

instance : IsTotal FeedItem distRel where
  total a b := by
    unfold distRel distLe
    cases a.distance_km <;> cases b.distance_km <;> simp
    exact le_total _ _

instance : IsTrans FeedItem distRel where
  trans a b c h1 h2 := by
    unfold distRel distLe at *
    revert h1 h2
    cases a.distance_km <;> cases b.distance_km <;> cases c.distance_km <;>
      simp
    exact fun p q => le_trans p q

instance : IsTotal Listing newerRel where
  total a b := by
    unfold newerRel
    exact le_total _ _

instance : IsTrans Listing newerRel where
  trans a b c h1 h2 := by
    unfold newerRel at *
    exact le_trans h2 h1

/-- The feed row built for a donation in the located branch;
`dm d.donor_id` is the metres value of
`ST_DistanceSphere(User.location, rescuer_location)` for the donor of
`d`, `none` when the donor has no stored location (SQL NULL), and
`distance_km = round(distance_meters / 1000, 2)`. -/
def feedItemOf (dm : Nat → Option ℚ) (d : Listing) : FeedItem :=
  { id := d.id, quantity_kg := d.quantity_kg, created_at := d.created_at,
    distance_km := (dm d.donor_id).map fun m => round2 (m / 1000) }

/-- The feed row built in the no-location branch: no distance attached. -/
def plainItemOf (d : Listing) : FeedItem :=
  { id := d.id, quantity_kg := d.quantity_kg, created_at := d.created_at,
    distance_km := none }

/-- Python truthiness of `lat and lng`: both query parameters present and
neither equal to 0 (a `0.0` coordinate is falsy). -/
def latlngTruthy : Option ℚ → Option ℚ → Bool
  | some a, some b => ¬(a = 0) ∧ ¬(b = 0)
  | _, _ => false

/-- The feed handler `get_donations` (`src/routes/donations.py` lines
131-206).
Branch 1 (location truthy): the geo join computes a distance per row; if
the whole query raises (`geoFails`) the handler swallows the exception
with `results` still empty; otherwise rows with active status are kept,
past-expiry rows are skipped, and the list is sorted ascending by
`distance_km` with `None` as infinity (Python's sort is stable, modelled
by the stable `insertionSort`).  Branch 2 runs only when `results` is
empty AND the location was not truthy: active rows ordered newest first,
past-expiry rows skipped, no distance attached. -/
def getDonations (db : DB) (dm : Nat → Option ℚ) (lat lng : Option ℚ)
    (now : ℚ) (geoFails : Bool) : List FeedItem :=
  let results :=
    if latlngTruthy lat lng then
      if geoFails then []
      else
        List.insertionSort distRel
          (((db.donations.filter fun d =>
              activeStatus d.status && !(pastExpiry d now))).map
            (feedItemOf dm))
    else []
  if results.isEmpty && !(latlngTruthy lat lng) then
    ((List.insertionSort newerRel
        (db.donations.filter fun d => activeStatus d.status)).filter
      fun d => !(pastExpiry d now)).map plainItemOf
  else results

/-- Sum of the ledger quantities recorded against one listing:
`sum(claim.quantity for claim in ledger)` restricted to `listingID`. -/
def ledgerSum (db : DB) (did : Nat) : ℚ :=
  ((db.claims.filter fun c => c.donation_id = did).map
    ClaimRow.quantity_claimed).sum

/-- Decidable form of the conservation law for one listing: whenever the
listing exists, ledger total plus remaining equals initial. -/
def conservedB (db : DB) (did : Nat) : Bool :=
  match lookupListing db did with
  | none => true
  | some d => ledgerSum db did + d.quantity_kg = d.initial_quantity_kg

/-- A claim attempt loses no residue on its target listing: the remaining
quantity it would leave is either exactly 0 or above the 0.1 clamping
threshold (so the clamp writes the true remainder). Requests that name
no listing or a missing one are vacuously fine. -/
def noResidueLoss (db : DB) (req : ClaimReq) : Bool :=
  match req.donation_id with
  | none => true
  | some did =>
    match lookupListing db did with
    | none => true
    | some d =>
      let q := req.quantity_kg.getD d.quantity_kg
      d.quantity_kg - q = 0 ∨ closeThreshold < d.quantity_kg - q

/-- A run of claim attempts in which every attempt that commits loses no
residue (rejected attempts are unrestricted). -/
def goodRun (now : ℚ) (db : DB) : List ClaimReq → Bool
  | [] => true
  | r :: rs =>
    (match claimDonation db now r with
     | .error _ => true
     | .ok _ => noResidueLoss db r) && goodRun now (stepClaim now db r) rs

/-- Whether the listing a ledger row points at is owned by `donor`. -/
def ownerIs (db : DB) (did donor : Nat) : Bool :=
  match lookupListing db did with
  | none => false
  | some d => d.donor_id = donor

/-- Total points the ledger justifies for a donor: the sum of
`int(quantity * 10)` over the claims recorded against that donor's
listings. -/
def pointsCredit (db : DB) (donor : Nat) : ℤ :=
  ((db.claims.filter fun c => ownerIs db c.donation_id donor).map
    fun c => creditFor c.quantity_claimed).sum

/-- Derived query `totalClaimedBy(donor)`: the summed kilograms of all claims recorded
against the donor's listings (the quantity `download_tax_certificate`
sums in `src/routes/user.py`). -/
def totalClaimedBy (db : DB) (donor : Nat) : ℚ :=
  ((db.claims.filter fun c => ownerIs db c.donation_id donor).map
    ClaimRow.quantity_claimed).sum

/-- Decidable form of the reward invariant: whenever the donor's account
exists, its point balance equals the ledger-justified credit. -/
def pointsInv (db : DB) (donor : Nat) : Bool :=
  match lookupUser db donor with
  | none => true
  | some u => u.points = pointsCredit db donor

/-- The donor's point balance, 0 when the account is missing. -/
def pointsOf (db : DB) (donor : Nat) : ℤ :=
  match lookupUser db donor with
  | none => 0
  | some u => u.points

/-- Sample verified donor account used by concrete evaluations. -/
def donor1 : Account :=
  { id := 1, role := "donor", is_verified := true, points := 0,
    impact_tier := "Newcomer" }

/-- Sample verified rescuer account used by concrete evaluations. -/
def rescuer2 : Account :=
  { id := 2, role := "rescuer", is_verified := true, points := 0,
    impact_tier := "Newcomer" }

/-- Sample fresh 10 kg listing owned by `donor1`. -/
def listing5 : Listing :=
  { id := 5, donor_id := 1, quantity_kg := 10, initial_quantity_kg := 10,
    status := "available", expiration_date := none, created_at := 0 }

/-- Sample database: one donor, one rescuer, one fresh 10 kg listing,
empty ledger. -/
def db0 : DB :=
  { users := [donor1, rescuer2], donations := [listing5], claims := [] }

/-- A partially claimed listing whose expiry has passed at time 1. -/
def listingPart : Listing :=
  { id := 6, donor_id := 1, quantity_kg := 4, initial_quantity_kg := 10,
    status := "partially_claimed", expiration_date := some 0,
    created_at := 0 }

/-- Database holding only the stale partially claimed listing. -/
def dbPart : DB :=
  { users := [donor1], donations := [listingPart], claims := [] }

/-- A constant distance oracle: every donor resolves to 2500 metres. -/
def dmSample : Nat → Option ℚ := fun _ => some 2500

/-- Boolean success test for `Except`. -/
def isOkB : Except ε α → Bool
  | .ok _ => true
  | .error _ => false

/-- The listing written by the negative-quantity creation example. -/
def negListing : Listing :=
  { id := 9, donor_id := 1, quantity_kg := -5, initial_quantity_kg := -5,
    status := "available", expiration_date := none, created_at := 3 }

/-- Newest-first order on feed rows, the shape
`order_by(created_at.desc())` leaves in the response. -/
def newerItem (a b : FeedItem) : Prop :=
  b.created_at ≤ a.created_at

section

attribute [local semireducible] Rat.mul Rat.add Rat.sub Rat.inv

theorem findBy_updateBy (key : α → Nat) (f : α → α) (i j : Nat)
    (hk : ∀ x, key (f x) = key x) (l : List α) :
    findBy key (updateBy key i f l) j =
      if i = j then (findBy key l j).map f else findBy key l j := by
  induction l with
  | nil => simp only [updateBy, List.map_nil, findBy]; split <;> rfl
  | cons x xs ih =>
    simp only [updateBy, List.map_cons, findBy] at *
    rcases eq_or_ne (key x) i with hxi | hxi
    · rw [if_pos hxi, hk]
      rcases eq_or_ne i j with rfl | hij
      · simp [findBy, hxi, ih]
      · simp [findBy, hxi, hij, ih]
    · rw [if_neg hxi]
      rcases eq_or_ne (key x) j with hxj | hxj
      · have hij : i ≠ j := fun h => hxi (h ▸ hxj)
        simp [findBy, hxj, hij]
      · simp [findBy, hxj, ih]

theorem commitClaim_claims (db : DB) (rid did : Nat) (d : Listing)
    (donor : Account) (q : ℚ) :
    (commitClaim db rid did d donor q).claims =
      db.claims ++ [⟨did, rid, q⟩] := rfl

theorem lookupListing_commitClaim (db : DB) (rid did : Nat) (d : Listing)
    (donor : Account) (q : ℚ) (j : Nat) :
    lookupListing (commitClaim db rid did d donor q) j =
      if did = j then
        (lookupListing db j).map fun x =>
          if d.quantity_kg - q ≤ closeThreshold then
            { x with quantity_kg := 0, status := "claimed" }
          else
            { x with quantity_kg := d.quantity_kg - q,
                     status := "partially_claimed" }
      else lookupListing db j := by
  have hk : ∀ x : Listing, Listing.id
      (if d.quantity_kg - q ≤ closeThreshold then
        { x with quantity_kg := 0, status := "claimed" }
      else
        { x with quantity_kg := d.quantity_kg - q,
                 status := "partially_claimed" }) = x.id := by
    intro x; split <;> rfl
  simpa [commitClaim, updateListingBy, updateUserBy, lookupListing] using
    findBy_updateBy Listing.id _ did j hk db.donations

theorem lookupUser_commitClaim (db : DB) (rid did : Nat) (d : Listing)
    (donor : Account) (q : ℚ) (j : Nat) :
    lookupUser (commitClaim db rid did d donor q) j =
      if d.donor_id = j then
        (lookupUser db j).map fun u =>
          { u with points := donor.points + creditFor q,
                   impact_tier := tierFor (donor.points + creditFor q) }
      else lookupUser db j := by
  have hk : ∀ u : Account, Account.id
      { u with points := donor.points + creditFor q,
               impact_tier := tierFor (donor.points + creditFor q) } =
      u.id := fun _ => rfl
  simpa [commitClaim, updateListingBy, updateUserBy, lookupUser] using
    findBy_updateBy Account.id _ d.donor_id j hk db.users

/-- Inversion of a successful `claim_donation`: a success pins down every
validation fact and the committed state. -/
theorem claimDonation_ok_inv {db : DB} {now : ℚ} {req : ClaimReq} {db2 : DB}
    (h : claimDonation db now req = Except.ok db2) :
    ∃ rescuer did d donor,
      lookupUser db req.rescuer_id = some rescuer ∧
      rescuer.role = "rescuer" ∧ rescuer.is_verified = true ∧
      req.donation_id = some did ∧ did ≠ 0 ∧
      lookupListing db did = some d ∧
      pastExpiry d now = false ∧ d.status ≠ "claimed" ∧
      0 < req.quantity_kg.getD d.quantity_kg ∧
      req.quantity_kg.getD d.quantity_kg ≤ d.quantity_kg + epsTolerance ∧
      lookupUser db d.donor_id = some donor ∧
      db2 = commitClaim db req.rescuer_id did d donor
              (req.quantity_kg.getD d.quantity_kg) := by
  unfold claimDonation at h
  split at h
  · exact absurd h (by simp)
  next rescuer hu =>
  split at h
  · exact absurd h (by simp)
  next hrole =>
  split at h
  · exact absurd h (by simp)
  next hver =>
  split at h
  · exact absurd h (by simp)
  next did hdid =>
  split at h
  · exact absurd h (by simp)
  next h0 =>
  split at h
  · exact absurd h (by simp)
  next d hd =>
  split at h
  · exact absurd h (by simp)
  next hexp =>
  split at h
  · exact absurd h (by simp)
  next hst =>
  split at h
  · exact absurd h (by simp)
  next hq0 =>
  split at h
  · exact absurd h (by simp)
  next hqe =>
  split at h
  · exact absurd h (by simp)
  next donor hdon =>
  refine ⟨rescuer, did, d, donor, hu, not_not.mp hrole, by simpa using hver,
    hdid, h0, hd, by simpa using hexp, hst, not_le.mp hq0, not_lt.mp hqe,
    hdon, ?_⟩
  exact ((Except.ok.injEq _ _).mp h).symm

/-- A validated request whose quantity beats the tolerance is rejected as
an over-claim. -/
theorem claimDonation_over {db : DB} {now : ℚ} {req : ClaimReq}
    {rescuer : Account} {did : Nat} {d : Listing}
    (hu : lookupUser db req.rescuer_id = some rescuer)
    (hrole : rescuer.role = "rescuer") (hver : rescuer.is_verified = true)
    (hdid : req.donation_id = some did) (h0 : did ≠ 0)
    (hd : lookupListing db did = some d)
    (hexp : pastExpiry d now = false) (hst : d.status ≠ "claimed")
    (hq0 : 0 < req.quantity_kg.getD d.quantity_kg)
    (hover : d.quantity_kg + epsTolerance < req.quantity_kg.getD d.quantity_kg) :
    claimDonation db now req = Except.error ClaimErr.overClaim := by
  unfold claimDonation
  simp only [hu, hdid, hd]
  simp [hrole, hver, h0, hexp, hst, not_le.mpr hq0, hover]

/-- A validated request within the tolerance commits. -/
theorem claimDonation_commits {db : DB} {now : ℚ} {req : ClaimReq}
    {rescuer donor : Account} {did : Nat} {d : Listing}
    (hu : lookupUser db req.rescuer_id = some rescuer)
    (hrole : rescuer.role = "rescuer") (hver : rescuer.is_verified = true)
    (hdid : req.donation_id = some did) (h0 : did ≠ 0)
    (hd : lookupListing db did = some d)
    (hexp : pastExpiry d now = false) (hst : d.status ≠ "claimed")
    (hq0 : 0 < req.quantity_kg.getD d.quantity_kg)
    (hle : req.quantity_kg.getD d.quantity_kg ≤ d.quantity_kg + epsTolerance)
    (hdon : lookupUser db d.donor_id = some donor) :
    claimDonation db now req =
      Except.ok (commitClaim db req.rescuer_id did d donor
        (req.quantity_kg.getD d.quantity_kg)) := by
  unfold claimDonation
  simp only [hu, hdid, hd, hdon]
  simp [hrole, hver, h0, hexp, hst, not_le.mpr hq0, not_lt.mpr hle]

/-- C1 (amended): for every claim request by a verified rescuer naming a
positive quantity, against an existing, non-expired, non-claimed listing
whose owner account exists: if the amount exceeds remaining + 0.01 the
claim is rejected `overClaim`; otherwise it commits, the remaining
quantity is decremented by the amount, and if the result is ≤ 0.1 it is
clamped to exactly 0 with status `claimed`, else the status becomes
`partially_claimed`. -/
theorem claim_overclaim_and_clamp (db : DB) (now : ℚ) (req : ClaimReq)
    {rescuer donor : Account} {did : Nat} {d : Listing} {q : ℚ}
    (hu : lookupUser db req.rescuer_id = some rescuer)
    (hrole : rescuer.role = "rescuer") (hver : rescuer.is_verified = true)
    (hdid : req.donation_id = some did) (h0 : did ≠ 0)
    (hd : lookupListing db did = some d)
    (hexp : pastExpiry d now = false) (hst : d.status ≠ "claimed")
    (hq : req.quantity_kg = some q) (hq0 : 0 < q)
    (hdon : lookupUser db d.donor_id = some donor) :
    (d.quantity_kg + epsTolerance < q →
        claimDonation db now req = Except.error ClaimErr.overClaim ∧
        stepClaim now db req = db) ∧
    (q ≤ d.quantity_kg + epsTolerance →
        ∃ db2, claimDonation db now req = Except.ok db2 ∧
          ∃ d', lookupListing db2 did = some d' ∧
            (d.quantity_kg - q ≤ closeThreshold →
                d'.quantity_kg = 0 ∧ d'.status = "claimed") ∧
            (closeThreshold < d.quantity_kg - q →
                d'.quantity_kg = d.quantity_kg - q ∧
                d'.status = "partially_claimed")) := by
  have hgd : req.quantity_kg.getD d.quantity_kg = q := by rw [hq]; rfl
  constructor
  · intro hover
    have he := claimDonation_over hu hrole hver hdid h0 hd hexp hst
      (hgd ▸ hq0) (hgd ▸ hover)
    exact ⟨he, by unfold stepClaim; rw [he]⟩
  · intro hle
    refine ⟨_, claimDonation_commits hu hrole hver hdid h0 hd hexp hst
      (hgd ▸ hq0) (hgd ▸ hle) hdon, ?_⟩
    rw [lookupListing_commitClaim, if_pos rfl, hd, hgd]
    simp only [Option.map_some']
    by_cases hres : d.quantity_kg - q ≤ closeThreshold
    · rw [if_pos hres]
      exact ⟨_, rfl, fun _ => ⟨rfl, rfl⟩, fun h' => absurd hres (not_le.mpr h')⟩
    · rw [if_neg hres]
      exact ⟨_, rfl, fun h' => absurd h' hres, fun _ => ⟨rfl, rfl⟩⟩

/-- Witness for C1: on the fresh 10 kg listing a 6 kg claim by the
verified rescuer commits, leaving 4 kg and status `partially_claimed`. -/
theorem claim_overclaim_and_clamp_witness :
    ∃ db2, claimDonation db0 0 ⟨2, some 5, some 6⟩ = Except.ok db2 ∧
      ∃ d', lookupListing db2 5 = some d' ∧
        (listing5.quantity_kg - 6 ≤ closeThreshold →
            d'.quantity_kg = 0 ∧ d'.status = "claimed") ∧
        (closeThreshold < listing5.quantity_kg - 6 →
            d'.quantity_kg = listing5.quantity_kg - 6 ∧
            d'.status = "partially_claimed") :=
  (claim_overclaim_and_clamp db0 0 ⟨2, some 5, some 6⟩ rfl rfl rfl rfl
    (by decide) rfl (by decide) (by decide) rfl (by norm_num)
    rfl).2 (by norm_num [listing5, epsTolerance])

/-- Counterexample to C1 as stated: a request for amount 0 against the
fresh listing does not exceed remaining + 0.01, yet it is rejected
(`Quantity must be positive`) instead of decrementing; the listing keeps
status `available`. -/
theorem claim_nonpositive_counterexample :
    lookupListing db0 5 = some listing5 ∧
    listing5.status ≠ "claimed" ∧ pastExpiry listing5 0 = false ∧
    ¬(listing5.quantity_kg + epsTolerance < 0) ∧
    claimDonation db0 0 ⟨2, some 5, some 0⟩ =
      Except.error ClaimErr.nonPositive ∧
    stepClaim 0 db0 ⟨2, some 5, some 0⟩ = db0 := by
  refine ⟨rfl, by decide, rfl, by norm_num [listing5, epsTolerance], rfl, rfl⟩

/-- C4: a rejected claim request — whatever the rejection reason (wrong
role, unverified claimant, missing or unknown listing, expiry, already
claimed, non-positive quantity, over-claim, storage failure) — leaves the
whole database exactly as it was: same listing quantity and status, no
ledger row, no points. -/
theorem rejected_claim_leaves_state (db : DB) (now : ℚ) (req : ClaimReq)
    (e : ClaimErr) (h : claimDonation db now req = Except.error e) :
    stepClaim now db req = db := by
  unfold stepClaim
  rw [h]

/-- Witness for C4: the donor's own claim attempt is rejected for the
wrong role, and the database is untouched. -/
theorem rejected_claim_leaves_state_witness :
    stepClaim 0 db0 ⟨1, some 5, some 1⟩ = db0 :=
  rejected_claim_leaves_state db0 0 ⟨1, some 5, some 1⟩
    ClaimErr.notRescuer (by rfl)

/-- C9: a successful claim whose request omitted `quantity_kg` always
claimed the listing's entire remaining quantity: the ledger row records
the old remaining quantity, and the listing ends at remaining 0 with
status `claimed`. -/
theorem claim_default_takes_all (db : DB) (now : ℚ) (req : ClaimReq)
    {db2 : DB} (hnone : req.quantity_kg = none)
    (h : claimDonation db now req = Except.ok db2) :
    ∃ did d, req.donation_id = some did ∧ lookupListing db did = some d ∧
      0 < d.quantity_kg ∧
      db2.claims = db.claims ++ [⟨did, req.rescuer_id, d.quantity_kg⟩] ∧
      lookupListing db2 did =
        some { d with quantity_kg := 0, status := "claimed" } := by
  obtain ⟨r, did, d, donor, hu, hrole, hver, hdid, h0, hd, hexp, hst, hq0,
    hqe, hdon, rfl⟩ := claimDonation_ok_inv h
  have hgd : req.quantity_kg.getD d.quantity_kg = d.quantity_kg := by
    rw [hnone]; rfl
  refine ⟨did, d, hdid, hd, hgd ▸ hq0, ?_, ?_⟩
  · rw [commitClaim_claims, hgd]
  · rw [lookupListing_commitClaim, if_pos rfl, hd, hgd]
    have hres : d.quantity_kg - d.quantity_kg ≤ closeThreshold := by
      rw [sub_self]; norm_num [closeThreshold]
    simp only [Option.map_some']
    rw [if_pos hres]

/-- Witness for C9: the omitted-quantity claim against the fresh 10 kg
listing records a 10 kg ledger row and closes the listing. -/
theorem claim_default_takes_all_witness :
    ∃ did d, (⟨2, some 5, none⟩ : ClaimReq).donation_id = some did ∧
      lookupListing db0 did = some d ∧ 0 < d.quantity_kg ∧
      (stepClaim 0 db0 ⟨2, some 5, none⟩).claims =
        db0.claims ++ [⟨did, 2, d.quantity_kg⟩] ∧
      lookupListing (stepClaim 0 db0 ⟨2, some 5, none⟩) did =
        some { d with quantity_kg := 0, status := "claimed" } :=
  claim_default_takes_all db0 0 ⟨2, some 5, none⟩ rfl (by rfl)

theorem ledgerSum_commitClaim (db : DB) (rid did : Nat) (d : Listing)
    (donor : Account) (q : ℚ) (j : Nat) :
    ledgerSum (commitClaim db rid did d donor q) j =
      ledgerSum db j + (if did = j then q else 0) := by
  unfold ledgerSum
  rw [commitClaim_claims, List.filter_append, List.map_append,
    List.sum_append]
  by_cases h : did = j <;> simp [h]

theorem runClaims_append (now : ℚ) (db : DB) (p s : List ClaimReq) :
    runClaims now db (p ++ s) = runClaims now (runClaims now db p) s :=
  List.foldl_append _ _ _ _

theorem goodRun_append (now : ℚ) (p s : List ClaimReq) :
    ∀ db : DB, goodRun now db (p ++ s) = true → goodRun now db p = true := by
  induction p with
  | nil => intro db _; rfl
  | cons r rs ih =>
    intro db h
    simp only [List.cons_append, goodRun, Bool.and_eq_true] at h ⊢
    exact ⟨h.1, ih _ h.2⟩

/-- One claim attempt preserves the conservation law, provided that if it
commits it loses no residue to the clamp. -/
theorem conservedB_step (db : DB) (now : ℚ) (req : ClaimReq) (did : Nat)
    (hc : conservedB db did = true)
    (hg : (match claimDonation db now req with
           | .error _ => true
           | .ok _ => noResidueLoss db req) = true) :
    conservedB (stepClaim now db req) did = true := by
  cases h : claimDonation db now req with
  | error e => unfold stepClaim; rw [h]; exact hc
  | ok db2 =>
    obtain ⟨r, did', d, donor, hu, hrole, hver, hdid, h0, hd, hexp, hst,
      hq0, hqe, hdon, hdb2⟩ := claimDonation_ok_inv h
    subst hdb2
    rw [h] at hg
    simp only [noResidueLoss, hdid, hd, decide_eq_true_eq] at hg
    have hstep : stepClaim now db req =
        commitClaim db req.rescuer_id did' d donor
          (req.quantity_kg.getD d.quantity_kg) := by
      unfold stepClaim; rw [h]
    rw [hstep]
    unfold conservedB at hc ⊢
    simp only [lookupListing_commitClaim, ledgerSum_commitClaim]
    by_cases hj : did' = did
    · subst hj
      simp only [hd, if_pos rfl, Option.map_some', decide_eq_true_eq]
        at hc ⊢
      rcases hg with hg0 | hgt
      · rw [if_pos (show d.quantity_kg -
            req.quantity_kg.getD d.quantity_kg ≤ closeThreshold by
          rw [hg0]; norm_num [closeThreshold])]
        simp only [if_true, decide_eq_true_eq]
        linarith
      · rw [if_neg (not_le.mpr hgt)]
        simp only [if_true, decide_eq_true_eq]
        linarith
    · simp only [if_neg hj, add_zero]
      exact hc

/-- Conservation along a whole run of claim attempts that never loses
residue. -/
theorem conservedB_run (now : ℚ) (did : Nat) :
    ∀ (reqs : List ClaimReq) (db : DB), conservedB db did = true →
      goodRun now db reqs = true →
      conservedB (runClaims now db reqs) did = true := by
  intro reqs
  induction reqs with
  | nil => intro db hc _; exact hc
  | cons r rs ih =>
    intro db hc hg
    simp only [goodRun, Bool.and_eq_true] at hg
    exact ih _ (conservedB_step db now r did hc hg.1) hg.2

/-- C2 (amended): for every listing and every run of claim attempts in
which each committed claim leaves the listing's remaining quantity either
exactly 0 or above the 0.1 clamping threshold, the sum of the ledger
quantities plus remaining equals initial after every prefix of the run.
(The clamp otherwise silently discards the sub-threshold residue, which
the counterexample exhibits.) -/
theorem conservation_good_runs (now : ℚ) (db : DB) (did : Nat)
    (reqs : List ClaimReq) (hc : conservedB db did = true)
    (hg : goodRun now db reqs = true) :
    ∀ p s, reqs = p ++ s →
      conservedB (runClaims now db p) did = true := by
  intro p s hps
  subst hps
  exact conservedB_run now did p db hc (goodRun_append now p s db hg)

/-- Witness for C2: the 6 kg then 4 kg run against the fresh 10 kg
listing keeps the conservation law after both steps. -/
theorem conservation_good_runs_witness :
    conservedB (runClaims 0 db0
      [⟨2, some 5, some 6⟩, ⟨2, some 5, some 4⟩]) 5 = true :=
  conservation_good_runs 0 db0 5 [⟨2, some 5, some 6⟩, ⟨2, some 5, some 4⟩]
    (by decide) (by decide) _ [] rfl

/-- Counterexample to C2 as stated: a successful 9.95 kg claim against
the fresh 10 kg listing trips the 0.1 completion clamp, the 0.05 kg
residue is discarded, and the ledger total (9.95) plus remaining (0) no
longer equals the initial quantity (10). -/
theorem conservation_clamp_counterexample :
    conservedB db0 5 = true ∧
    isOkB (claimDonation db0 0 ⟨2, some 5, some (199/20)⟩) = true ∧
    ledgerSum (stepClaim 0 db0 ⟨2, some 5, some (199/20)⟩) 5 = 199/20 ∧
    (lookupListing (stepClaim 0 db0 ⟨2, some 5, some (199/20)⟩) 5).map
      Listing.quantity_kg = some 0 ∧
    conservedB (stepClaim 0 db0 ⟨2, some 5, some (199/20)⟩) 5 = false := by
  refine ⟨by decide, by decide, by decide, by decide, by decide⟩

theorem ownerIs_commitClaim (db : DB) (rid did : Nat) (d : Listing)
    (donor : Account) (q : ℚ) (hd : lookupListing db did = some d)
    (x o : Nat) :
    ownerIs (commitClaim db rid did d donor q) x o = ownerIs db x o := by
  unfold ownerIs
  rw [lookupListing_commitClaim]
  by_cases h : did = x
  · subst h
    rw [hd]
    have hdn : (if d.quantity_kg - q ≤ closeThreshold then
        { d with quantity_kg := 0, status := "claimed" }
      else
        { d with quantity_kg := d.quantity_kg - q,
                 status := "partially_claimed" }).donor_id = d.donor_id := by
      split <;> rfl
    simp only [Option.map_some', eq_self_iff_true, if_true, hdn]
  · rw [if_neg h]

theorem pointsCredit_commitClaim (db : DB) (rid did : Nat) (d : Listing)
    (donor : Account) (q : ℚ) (hd : lookupListing db did = some d)
    (o : Nat) :
    pointsCredit (commitClaim db rid did d donor q) o =
      pointsCredit db o +
        (if d.donor_id = o then creditFor q else 0) := by
  unfold pointsCredit
  simp only [ownerIs_commitClaim db rid did d donor q hd]
  rw [commitClaim_claims, List.filter_append, List.map_append,
    List.sum_append]
  have hrow : ownerIs db did o = decide (d.donor_id = o) := by
    unfold ownerIs; rw [hd]
  by_cases h : d.donor_id = o <;> simp [hrow, h]

theorem creditFor_nonneg {q : ℚ} (hq : 0 < q) : 0 ≤ creditFor q := by
  unfold creditFor pyInt
  have hnum : 0 ≤ (q * 10).num := by
    have : (0 : ℚ) < q * 10 := by linarith
    exact le_of_lt (Rat.num_pos.mpr this)
  exact Int.tdiv_nonneg hnum (Int.ofNat_nonneg _)

/-- One claim attempt preserves the ledger-justified points balance for
every donor. -/
theorem pointsInv_step (db : DB) (now : ℚ) (req : ClaimReq) (o : Nat)
    (hp : pointsInv db o = true) :
    pointsInv (stepClaim now db req) o = true := by
  cases h : claimDonation db now req with
  | error e => unfold stepClaim; rw [h]; exact hp
  | ok db2 =>
    obtain ⟨r, did, d, donor, hu, hrole, hver, hdid, h0, hd, hexp, hst,
      hq0, hqe, hdon, hdb2⟩ := claimDonation_ok_inv h
    subst hdb2
    have hstep : stepClaim now db req =
        commitClaim db req.rescuer_id did d donor
          (req.quantity_kg.getD d.quantity_kg) := by
      unfold stepClaim; rw [h]
    rw [hstep]
    unfold pointsInv at hp ⊢
    rw [lookupUser_commitClaim,
      pointsCredit_commitClaim db _ did d donor _ hd]
    by_cases ho : d.donor_id = o
    · rw [if_pos ho, if_pos ho]
      rw [ho] at hdon
      rw [hdon] at hp ⊢
      simp only [Option.map_some', decide_eq_true_eq] at hp ⊢
      rw [hp]
    · rw [if_neg ho, if_neg ho, add_zero]
      exact hp

/-- One claim attempt never decreases any account's point balance. -/
theorem pointsOf_step_le (db : DB) (now : ℚ) (req : ClaimReq) (o : Nat) :
    pointsOf db o ≤ pointsOf (stepClaim now db req) o := by
  cases h : claimDonation db now req with
  | error e => unfold stepClaim; rw [h]
  | ok db2 =>
    obtain ⟨r, did, d, donor, hu, hrole, hver, hdid, h0, hd, hexp, hst,
      hq0, hqe, hdon, hdb2⟩ := claimDonation_ok_inv h
    subst hdb2
    have hstep : stepClaim now db req =
        commitClaim db req.rescuer_id did d donor
          (req.quantity_kg.getD d.quantity_kg) := by
      unfold stepClaim; rw [h]
    rw [hstep]
    unfold pointsOf
    rw [lookupUser_commitClaim]
    by_cases ho : d.donor_id = o
    · rw [if_pos ho]
      rw [ho] at hdon
      rw [hdon]
      simp only [Option.map_some']
      have := creditFor_nonneg hq0
      omega
    · rw [if_neg ho]

theorem pointsOf_run_le (now : ℚ) (o : Nat) :
    ∀ (reqs : List ClaimReq) (db : DB),
      pointsOf db o ≤ pointsOf (runClaims now db reqs) o := by
  intro reqs
  induction reqs with
  | nil => intro db; exact le_refl _
  | cons r rs ih =>
    intro db
    exact le_trans (pointsOf_step_le db now r o) (ih (stepClaim now db r))

theorem pointsInv_run (now : ℚ) (o : Nat) :
    ∀ (reqs : List ClaimReq) (db : DB), pointsInv db o = true →
      pointsInv (runClaims now db reqs) o = true := by
  intro reqs
  induction reqs with
  | nil => intro db hp; exact hp
  | cons r rs ih =>
    intro db hp
    exact ih _ (pointsInv_step db now r o hp)

/-- C3 (amended): over any run of claim attempts, a donor's point total
is non-decreasing at every prefix, and whenever the balance matches the
ledger-justified credit (the sum of `int(quantity * 10)` over the claims
recorded against the donor's listings) before the run — in particular at
0 points with an empty ledger — it matches it again after the run.  The
total equals `10 * totalClaimedBy(donor)` only when every claimed
quantity is a multiple of 0.1; the counterexample shows the general
claim false. -/
theorem reward_points_monotone_credit (now : ℚ) (db : DB) (o : Nat)
    (reqs : List ClaimReq) (hp : pointsInv db o = true) :
    (∀ p s, reqs = p ++ s →
       pointsOf (runClaims now db p) o ≤ pointsOf (runClaims now db reqs) o) ∧
    pointsInv (runClaims now db reqs) o = true := by
  constructor
  · intro p s hps
    subst hps
    rw [runClaims_append]
    exact pointsOf_run_le now o s (runClaims now db p)
  · exact pointsInv_run now o reqs db hp

/-- Witness for C3: after the 6 kg claim the donor holds 60 points, which
matches the ledger-justified credit, and the balance did not decrease. -/
theorem reward_points_monotone_credit_witness :
    pointsOf (runClaims 0 db0 []) 1 ≤
      pointsOf (runClaims 0 db0 [⟨2, some 5, some 6⟩]) 1 ∧
    pointsInv (runClaims 0 db0 [⟨2, some 5, some 6⟩]) 1 = true :=
  ⟨(reward_points_monotone_credit 0 db0 1 [⟨2, some 5, some 6⟩]
      (by decide)).1 [] [⟨2, some 5, some 6⟩] rfl,
   (reward_points_monotone_credit 0 db0 1 [⟨2, some 5, some 6⟩]
      (by decide)).2⟩

/-- Counterexample to C3 as stated: one committed claim of 0.25 kg
credits `int(0.25 * 10) = 2` points, but 10 times the claimed total is
2.5, so the point total does not equal `10 * totalClaimedBy(donor)`. -/
theorem reward_tenfold_counterexample :
    isOkB (claimDonation db0 0 ⟨2, some 5, some (1/4)⟩) = true ∧
    pointsOf (stepClaim 0 db0 ⟨2, some 5, some (1/4)⟩) 1 = 2 ∧
    totalClaimedBy (stepClaim 0 db0 ⟨2, some 5, some (1/4)⟩) 1 = 1/4 ∧
    ¬((pointsOf (stepClaim 0 db0 ⟨2, some 5, some (1/4)⟩) 1 : ℚ) =
        10 * totalClaimedBy (stepClaim 0 db0 ⟨2, some 5, some (1/4)⟩) 1) := by
  refine ⟨by decide, by decide, by decide, ?_⟩
  intro hcontra
  rw [show totalClaimedBy (stepClaim 0 db0 ⟨2, some 5, some (1/4)⟩) 1 =
      1/4 from by decide,
    show pointsOf (stepClaim 0 db0 ⟨2, some 5, some (1/4)⟩) 1 = 2 from
      by decide] at hcontra
  norm_num at hcontra

/-- C5 (amended): the expiry sweep transitions exactly the past-expiry
listings whose status is `available` to `expired` (all other fields
intact) and leaves every other listing — including past-expiry
`partially_claimed` ones and all `claimed` ones — completely unchanged. -/
theorem sweep_only_available (db : DB) (now : ℚ) :
    List.Forall₂ (fun d d' =>
      (d.status = "available" ∧ pastExpiry d now = true →
          d' = { d with status := "expired" }) ∧
      (¬(d.status = "available" ∧ pastExpiry d now = true) → d' = d))
      db.donations (expireFoodJob db now).donations := by
  unfold expireFoodJob
  show List.Forall₂ _ db.donations (db.donations.map _)
  induction db.donations with
  | nil => exact List.Forall₂.nil
  | cons x xs ih =>
    rw [List.map_cons]
    refine List.Forall₂.cons ⟨fun hcond => ?_, fun hcond => ?_⟩ ih
    · rw [if_pos hcond]
    · rw [if_neg hcond]

/-- Counterexample to C5 as stated: a `partially_claimed` listing whose
expiry has passed is not touched by the sweep — its status stays
`partially_claimed` instead of becoming `expired`. -/
theorem sweep_misses_partial_counterexample :
    listingPart.status = "partially_claimed" ∧
    listingPart.status ≠ "expired" ∧
    pastExpiry listingPart 1 = true ∧
    (expireFoodJob dbPart 1).donations = [listingPart] ∧
    lookupListing (expireFoodJob dbPart 1) 6 = some listingPart := by
  refine ⟨rfl, by decide, rfl, rfl, rfl⟩

/-- C8 (amended): `create_donation` rejects a quantity that fails numeric
parsing with the invalid-quantity error and creates nothing; every
request by an existing verified donor with the required fields and a
parsed numeric quantity — positive or not — creates a listing appended to
the table with status `available` and remaining = initial = that
quantity.  (There is no positivity check; the counterexample shows a
listing created with quantity −5.) -/
theorem create_status_and_quantity (db : DB) (req : CreateReq)
    (newId : Nat) (now : ℚ) (u : Account)
    (hu : lookupUser db req.user_id = some u)
    (hver : u.is_verified = true) (hrole : u.role = "donor")
    (hreq : req.has_required = true) :
    (req.quantity_kg = none →
        createDonation db req newId now = Except.error CreateErr.notANumber) ∧
    (∀ kg, req.quantity_kg = some kg → req.expiration_field ≠ some none →
        ∃ db2 d, createDonation db req newId now = Except.ok (db2, d) ∧
          d.status = "available" ∧ d.quantity_kg = kg ∧
          d.initial_quantity_kg = kg ∧
          db2.donations = db.donations ++ [d]) := by
  constructor
  · intro hq
    unfold createDonation
    rw [hu]
    simp [hver, hrole, hreq, hq]
  · intro kg hkg hexp
    unfold createDonation
    rw [hu]
    cases hfield : req.expiration_field with
    | none =>
      refine ⟨{ db with donations := db.donations ++
          [⟨newId, req.user_id, kg, kg, "available", none, now⟩] },
        ⟨newId, req.user_id, kg, kg, "available", none, now⟩,
        ?_, rfl, rfl, rfl, rfl⟩
      simp [hver, hrole, hreq, hkg, hfield]
    | some x =>
      cases x with
      | none => exact absurd hfield hexp
      | some t =>
        refine ⟨{ db with donations := db.donations ++
            [⟨newId, req.user_id, kg, kg, "available", some t, now⟩] },
          ⟨newId, req.user_id, kg, kg, "available", some t, now⟩,
          ?_, rfl, rfl, rfl, rfl⟩
        simp [hver, hrole, hreq, hkg, hfield]

/-- Witness for C8: a 20 kg creation request by the verified donor
produces an `available` listing with remaining = initial = 20. -/
theorem create_status_and_quantity_witness :
    ∃ db2 d, createDonation db0 ⟨1, true, some 20, none⟩ 7 2 =
        Except.ok (db2, d) ∧
      d.status = "available" ∧ d.quantity_kg = 20 ∧
      d.initial_quantity_kg = 20 ∧
      db2.donations = db0.donations ++ [d] :=
  (create_status_and_quantity db0 ⟨1, true, some 20, none⟩ 7 2 donor1
    rfl rfl rfl rfl).2 20 rfl (by decide)

/-- Counterexample to C8 as stated: a creation request with quantity −5
is not rejected — the listing is created, `available`, with remaining
−5. -/
theorem create_nonpositive_counterexample :
    createDonation db0 ⟨1, true, some (-5), none⟩ 9 3 =
      Except.ok ({ db0 with donations := db0.donations ++ [negListing] },
        negListing) ∧
    negListing.quantity_kg ≤ 0 ∧ negListing.status = "available" := by
  refine ⟨rfl, by decide, rfl⟩

theorem latlngTruthy_some {a b : ℚ} (ha : a ≠ 0) (hb : b ≠ 0) :
    latlngTruthy (some a) (some b) = true := by
  unfold latlngTruthy
  simp [ha, hb]

theorem getDonations_none_eq (db : DB) (dm : Nat → Option ℚ) (now : ℚ)
    (gf : Bool) :
    getDonations db dm none none now gf =
      ((List.insertionSort newerRel (db.donations.filter fun d =>
          activeStatus d.status)).filter fun d => !(pastExpiry d now)).map
        plainItemOf := rfl

theorem getDonations_some_eq (db : DB) (dm : Nat → Option ℚ) (now : ℚ)
    {a b : ℚ} (ha : a ≠ 0) (hb : b ≠ 0) :
    getDonations db dm (some a) (some b) now false =
      List.insertionSort distRel ((db.donations.filter fun d =>
        activeStatus d.status && !(pastExpiry d now)).map (feedItemOf dm)) := by
  unfold getDonations
  rw [latlngTruthy_some ha hb]
  simp

/-- The no-location feed is sorted newest first. -/
theorem plainFeed_sorted (db : DB) (dm : Nat → Option ℚ) (now : ℚ)
    (gf : Bool) :
    List.Sorted newerItem (getDonations db dm none none now gf) := by
  rw [getDonations_none_eq]
  refine List.Pairwise.map _ (fun x y h => h) ?_
  exact List.Pairwise.sublist (List.filter_sublist _)
    (List.sorted_insertionSort newerRel _)

/-- The no-location feed holds exactly the active, unexpired rows. -/
theorem plainFeed_perm (db : DB) (dm : Nat → Option ℚ) (now : ℚ)
    (gf : Bool) :
    List.Perm (getDonations db dm none none now gf)
      ((db.donations.filter fun d =>
          activeStatus d.status && !(pastExpiry d now)).map plainItemOf) := by
  rw [getDonations_none_eq]
  refine List.Perm.map _ ?_
  have h1 : List.Perm
      ((List.insertionSort newerRel (db.donations.filter fun d =>
          activeStatus d.status)).filter fun d => !(pastExpiry d now))
      ((db.donations.filter fun d =>
          activeStatus d.status).filter fun d => !(pastExpiry d now)) :=
    List.Perm.filter _ (List.perm_insertionSort _ _)
  refine h1.trans ?_
  rw [List.filter_filter]
  exact List.Perm.of_eq (List.filter_congr fun x _ => by rw [Bool.and_comm])

/-- C6: the feed holds exactly the `available`/`partially_claimed`
listings whose expiry has not passed.  With a (truthy) requester
location it is sorted in non-decreasing attached distance with missing
distances last; without one it is sorted by creation time, newest
first. -/
theorem feed_membership_and_order (db : DB) (dm : Nat → Option ℚ)
    (now : ℚ) :
    (∀ a b : ℚ, a ≠ 0 → b ≠ 0 →
       List.Perm (getDonations db dm (some a) (some b) now false)
         ((db.donations.filter fun d =>
             activeStatus d.status && !(pastExpiry d now)).map
           (feedItemOf dm)) ∧
       List.Sorted distRel
         (getDonations db dm (some a) (some b) now false)) ∧
    (List.Perm (getDonations db dm none none now false)
       ((db.donations.filter fun d =>
           activeStatus d.status && !(pastExpiry d now)).map plainItemOf) ∧
     List.Sorted newerItem (getDonations db dm none none now false)) := by
  refine ⟨fun a b ha hb => ⟨?_, ?_⟩,
    plainFeed_perm db dm now false, plainFeed_sorted db dm now false⟩
  · rw [getDonations_some_eq db dm now ha hb]
    exact List.perm_insertionSort _ _
  · rw [getDonations_some_eq db dm now ha hb]
    exact List.sorted_insertionSort _ _

/-- Witness for C6: the located feed over the sample database is a
permutation of the filtered view and is sorted by distance. -/
theorem feed_membership_and_order_witness :
    List.Perm (getDonations db0 dmSample (some 1) (some 1) 0 false)
      ((db0.donations.filter fun d =>
          activeStatus d.status && !(pastExpiry d 0)).map
        (feedItemOf dmSample)) ∧
    List.Sorted distRel (getDonations db0 dmSample (some 1) (some 1) 0 false) :=
  (feed_membership_and_order db0 dmSample 0).1 1 1 (by norm_num) (by norm_num)

/-- C7 (code bug): when the requester location is truthy and the distance
query raises, `get_donations` swallows the exception with `results`
still empty, and the `not (lat and lng)` guard then skips the fallback —
the feed comes back empty even though an active, unexpired listing
exists (and is returned when the query succeeds).  The claim (and the
source comment `Fallback handled below`) say those listings should still
be returned with a null distance. -/
theorem geo_failure_empty_feed :
    lookupListing db0 5 = some listing5 ∧
    activeStatus listing5.status = true ∧
    pastExpiry listing5 0 = false ∧
    getDonations db0 dmSample (some 1) (some 1) 0 true = [] ∧
    getDonations db0 dmSample (some 1) (some 1) 0 false ≠ [] := by
  refine ⟨rfl, rfl, rfl, ?_, by decide⟩
  unfold getDonations
  rw [latlngTruthy_some (by norm_num : (1:ℚ) ≠ 0) (by norm_num : (1:ℚ) ≠ 0)]
  simp

/-- C10: a feed request whose latitude or longitude is absent or exactly
0 behaves exactly like a request with no location: same result as the
no-location query, no distances attached, ordered newest first. -/
theorem zero_location_plain_feed (db : DB) (dm : Nat → Option ℚ)
    (lat lng : Option ℚ) (now : ℚ) (gf : Bool)
    (h : lat = none ∨ lat = some 0 ∨ lng = none ∨ lng = some 0) :
    getDonations db dm lat lng now gf =
      getDonations db dm none none now gf ∧
    (∀ x ∈ getDonations db dm lat lng now gf, x.distance_km = none) ∧
    List.Sorted newerItem (getDonations db dm lat lng now gf) := by
  have ht : latlngTruthy lat lng = false := by
    rcases h with rfl | rfl | rfl | rfl
    · rfl
    · cases lng with
      | none => rfl
      | some b => simp [latlngTruthy]
    · cases lat with
      | none => rfl
      | some a => rfl
    · cases lat with
      | none => rfl
      | some a => simp [latlngTruthy]
  have e1 : getDonations db dm lat lng now gf =
      getDonations db dm none none now gf := by
    rw [getDonations_none_eq]
    unfold getDonations
    rw [ht]
    simp
  refine ⟨e1, ?_, ?_⟩
  · intro x hx
    rw [e1, getDonations_none_eq] at hx
    obtain ⟨d, _, rfl⟩ := List.mem_map.mp hx
    rfl
  · rw [e1]
    exact plainFeed_sorted db dm now gf

/-- Witness for C10: a request with latitude exactly 0 returns the plain
newest-first feed of the sample database. -/
theorem zero_location_plain_feed_witness :
    getDonations db0 dmSample (some 0) (some 1) 0 false =
      getDonations db0 dmSample none none 0 false ∧
    (∀ x ∈ getDonations db0 dmSample (some 0) (some 1) 0 false,
        x.distance_km = none) ∧
    List.Sorted newerItem (getDonations db0 dmSample (some 0) (some 1) 0 false) :=
  zero_location_plain_feed db0 dmSample (some 0) (some 1) 0 false
    (Or.inr (Or.inl rfl))

end

end FRN
